import Mathlib

/-!
# Verification of `playwright_capture.py`

Shallow embedding of the pure core of the single-file service
`src/playwright_capture.py`: the domain extractor (`extract_domain`), the
domain aggregator (`analyze_domains`), the request-dedup step of
`capture_requests_playwright`, the admission gate (`threading.Semaphore(5)`
used non-blockingly in `analyze_url`), and the HTTP handler's
outcome-to-response mapping (`requires_auth` / `analyze_url`).

URLs are modelled as lists of characters (`Url := List Char`); CPython's
`urllib.parse.urlsplit` netloc computation (the only part of `urlparse` the
code consumes) is embedded directly, with `ValueError` modelled by
`Except.error`.  The external collaborators (the headless browser and the
`tldextract` public-suffix database) are inputs: the browser's observations
are the `links` / request lists handed to the aggregator, and the suffix
database is a function parameter `tld : Url → TldResult`.
-/

/-- A URL (or any Python string) as a list of characters. -/
abbrev Url := List Char

/-! ## CPython `urllib.parse.urlsplit`, netloc part (modelled from CPython 3.12) -/

/-- CPython `_WHATWG_C0_CONTROL_OR_SPACE`: code points `≤ 0x20`. -/
def isC0OrSpace (c : Char) : Bool := c.toNat ≤ 0x20

/-- CPython `_UNSAFE_URL_BYTES_TO_REMOVE = ["\t", "\r", "\n"]`. -/
def isUnsafeByte (c : Char) : Bool := c = '\t' || c = '\r' || c = '\n'

/-- CPython `scheme_chars`: ASCII letters, digits, `+`, `-`, `.`. -/
def schemeChar (c : Char) : Bool := c.isAlpha || c.isDigit || c = '+' || c = '-' || c = '.'

/-- First character is an ASCII letter (`url[0].isascii() and url[0].isalpha()`). -/
def headIsAlpha : List Char → Bool
  | [] => false
  | c :: _ => c.isAlpha

/-- Drop a leading `scheme:` when the text before the first `:` is a valid
scheme: nonempty, starts with an ASCII letter, and every character is a
scheme character (CPython `urlsplit`, the `i = url.find(':')` block). -/
def stripScheme (u : List Char) : List Char :=
  let before := u.takeWhile (fun c => c != ':')
  if before.length < u.length && headIsAlpha before && before.all schemeChar then
    u.drop (before.length + 1)
  else u

/-- A character ending the netloc in CPython `_splitnetloc`: `/`, `?` or `#`. -/
def isNetlocDelim (c : Char) : Bool := c = '/' || c = '?' || c = '#'

/-- The `netloc` component computed by CPython 3.12 `urlsplit`, with
`ValueError` as `Except.error`.  Steps: lstrip C0-control/space characters,
remove tab/CR/LF everywhere, strip a valid `scheme:`, then if the remainder
starts with `//`, the netloc is everything up to the next `/`, `?` or `#`;
otherwise the netloc is empty.  A netloc containing `[` without `]` (or
conversely) raises `ValueError("Invalid IPv6 URL")`.  (CPython additionally
validates a bracketed `[...]` host as IPv6/IPvFuture and non-ASCII netlocs
under NFKC, further `ValueError` sources not modelled here; no claim
involves bracketed or non-ASCII hosts.) -/
def urlsplit_netloc (url : Url) : Except Unit Url :=
  let url1 := url.dropWhile isC0OrSpace
  let url2 := url1.filter (fun c => !(isUnsafeByte c))
  let url3 := stripScheme url2
  if url3.take 2 = ['/', '/'] then
    let netloc := (url3.drop 2).takeWhile (fun c => !(isNetlocDelim c))
    if (netloc.contains '[') != (netloc.contains ']') then Except.error ()
    else Except.ok netloc
  else Except.ok []

/-! ## `extract_domain` (src/playwright_capture.py, lines 37-60) -/

/-- The literal `blob:` scheme marker. -/
def blobMark : Url := ['b', 'l', 'o', 'b', ':']

/-- Python `url.split(':', 1)[1]`: everything after the first `:`.
(Only invoked on strings that start with `blob:`, so a `:` is present.) -/
def afterFirstColon (u : Url) : Url := (u.dropWhile (fun c => c != ':')).drop 1

/-- The blob-unwrapping step of `extract_domain` (lines 49-50):
`if url.startswith('blob:'): url = url.split(':', 1)[1]`. -/
def stripBlob (u : Url) : Url :=
  if blobMark.isPrefixOf u then afterFirstColon u else u

/-- `extract_domain` (lines 37-60): unwrap a `blob:` marker, parse, take the
netloc, and return it only if nonempty and containing a `.`; the bare
`except:` turns any parse failure into `none`. -/
def extract_domain (u : Url) : Option Url :=
  match urlsplit_netloc (stripBlob u) with
  | Except.error _ => none
  | Except.ok domain =>
      if domain ≠ [] ∧ '.' ∈ domain then some domain else none

/-! ## The external suffix database (`tldextract`) as a collaborator -/

/-- Result of the external public-suffix library `tldextract.extract`:
subdomain, registrable label (`domain`) and recognized public suffix,
any of which may be empty. -/
structure TldResult where
  subdomain : Url
  domain : Url
  suffix : Url
deriving DecidableEq, Repr

/-! ## `analyze_domains` (lines 105-152), pure aggregation core

`capture_requests_playwright` is browser I/O; its observations (the anchor
hrefs and the ordered raw request stream) are inputs here.  The only pure
step it performs is `all_urls = list(set(all_requests))` (line 97), embedded
as `capture_merge` below. -/

/-- The literal `javascript:` marker (line 118/126 `startswith`). -/
def jsMark : Url := ['j', 'a', 'v', 'a', 's', 'c', 'r', 'i', 'p', 't', ':']

/-- The literal `data:` marker (line 118/126 `startswith`). -/
def dataMark : Url := ['d', 'a', 't', 'a', ':']

/-- A URL the aggregator silently drops when it yields no domain:
empty, or starting with `javascript:` or `data:` (the `elif` guard,
lines 118 and 126, negated). -/
def isIgnorable (u : Url) : Bool :=
  u.isEmpty || jsMark.isPrefixOf u || dataMark.isPrefixOf u

/-- The domains collected into the set `all_domains` by the two loops of
`analyze_domains` (lines 114-127), in encounter order: `extract_domain`
applied to every URL, keeping the successes. -/
def validDomains (urls : List Url) : List Url := urls.filterMap extract_domain

/-- The list `invalid_urls` built by the two loops (lines 114-127), in
encounter order: URLs where `extract_domain` yields nothing and that are
nonempty and not `javascript:`/`data:`-prefixed. -/
def invalidUrls (urls : List Url) : List Url :=
  urls.filter (fun u => (extract_domain u).isNone && !(isIgnorable u))

/-- Python `sorted(list(s))` for a set `s` collected from the list `l`:
the lexicographically sorted enumeration of the distinct elements.
(Python set iteration order is unspecified; the sorted output is not.) -/
def sortedSet (l : List Url) : List Url :=
  List.insertionSort (· ≤ ·) l.dedup

/-- Line 138: `main_domain = f"{extract_result.domain}.{extract_result.suffix}"`. -/
def mainDomainOf (tld : Url → TldResult) (d : Url) : Url :=
  (tld d).domain ++ '.' :: (tld d).suffix

/-- The JSON object returned by `analyze_domains` (lines 145-152). -/
structure AnalysisResult where
  links_count : Nat
  requests_count : Nat
  main_domains : List Url
  main_domains_count : Nat
  invalid_urls : List Url
  invalid_urls_count : Nat
deriving DecidableEq, Repr

/-- `analyze_domains` (lines 105-152) given the captured `links` and
(already deduplicated, line 97) `all_requests`, and the external suffix
database `tld`:
two loops partition links-then-requests into extracted domains and invalid
URLs; the domain set is sorted; each sorted raw domain is resolved via
`tld` and `domain + "." + suffix` is kept when the suffix is nonempty; the
main-domain set is sorted; the result carries raw counts, the sorted main
domains, the first 10 invalid URLs and the total invalid count. -/
def analyze_domains (tld : Url → TldResult) (links all_requests : List Url) :
    AnalysisResult :=
  let all_urls := links ++ all_requests
  let invalid_urls := invalidUrls all_urls
  let sorted_domains := sortedSet (validDomains all_urls)
  let main_list :=
    (sorted_domains.filter (fun d => !(tld d).suffix.isEmpty)).map (mainDomainOf tld)
  let sorted_main_domains := sortedSet main_list
  { links_count := links.length
    requests_count := all_requests.length
    main_domains := sorted_main_domains
    main_domains_count := sorted_main_domains.length
    invalid_urls := invalid_urls.take 10
    invalid_urls_count := invalid_urls.length }

/-- Line 97 of `capture_requests_playwright`:
`all_urls = list(set(all_requests))` — the observed request stream is
deduplicated before being returned.  Python's set iteration order is
unspecified; `List.dedup` is the deterministic representative (length and
membership are order-independent). -/
def capture_merge (all_requests : List Url) : List Url := all_requests.dedup

/-- The whole pipeline on one page's observations: `analyze_domains`
applied to the anchor hrefs and the deduplicated request stream, exactly as
`analyze_domains` calls `capture_requests_playwright` (line 107). -/
def pipeline (tld : Url → TldResult) (links observedRequests : List Url) :
    AnalysisResult :=
  analyze_domains tld links (capture_merge observedRequests)

/-! ## A small concrete suffix database for concrete evaluations -/

/-- Split a host on `.` into labels (Python `'a.b.c'.split('.')`). -/
def splitDots (u : Url) : List Url :=
  match u with
  | [] => [[]]
  | '.' :: rest => [] :: splitDots rest
  | c :: rest =>
      match splitDots rest with
      | [] => [[c]]
      | l :: ls => (c :: l) :: ls

/-- Modelled from the spec: the external public-suffix database collaborator
(`tldextract`), instantiated with a tiny fixed suffix list for concrete
evaluations: `co.uk`, `com`, `org`, `net`, `uk` (longest match first). -/
def demoSuffixes : List (List Url) :=
  [[['c', 'o'], ['u', 'k']], [['c', 'o', 'm']], [['o', 'r', 'g']],
   [['n', 'e', 't']], [['u', 'k']]]

/-- Modelled from the spec: `tldextract.extract` over `demoSuffixes`.
The longest suffix whose labels end the host's labels is the public suffix;
the label just before it is the registrable `domain`; anything earlier is
the `subdomain`.  With no recognized suffix, the last label is the `domain`
and the suffix is empty. -/
def tldDemo (host : Url) : TldResult :=
  let labels := splitDots host
  match demoSuffixes.find? (fun s => s.isSuffixOf labels) with
  | some s =>
      let front := labels.take (labels.length - s.length)
      { subdomain := List.intercalate ['.'] front.dropLast
        domain := front.getLastD []
        suffix := List.intercalate ['.'] s }
  | none =>
      { subdomain := List.intercalate ['.'] labels.dropLast
        domain := labels.getLastD []
        suffix := [] }

/-! ## Admission gate (lines 154-156, 170-180)

`semaphore = threading.Semaphore(MAX_CONCURRENT_REQUESTS)` used as
`semaphore.acquire(blocking=False)` before the analysis and
`semaphore.release()` in the handler's `finally` block.  The gate is a
labelled transition system on the semaphore counter plus the number of
analyses in flight; every event of a request's lifecycle that touches the
gate is a step.  The `finally` makes the release happen on both the return
path and the exception path, which is why both finish events exist and both
release a permit. -/

/-- `MAX_CONCURRENT_REQUESTS = 5` (line 155). -/
def MAX_CONCURRENT_REQUESTS : Nat := 5

/-- Gate state: remaining semaphore permits and number of analyses in
flight (admitted but not finished). -/
structure Gate where
  permits : Nat
  inflight : Nat
deriving DecidableEq, Repr

/-- The initial gate: a fresh `threading.Semaphore(5)`, nothing running. -/
def gateInit : Gate := { permits := MAX_CONCURRENT_REQUESTS, inflight := 0 }

/-- Gate events of one request's lifecycle in `analyze_url`. -/
inductive GateEv where
  /-- `semaphore.acquire(blocking=False)` returned True: analysis admitted. -/
  | enter
  /-- `acquire(blocking=False)` returned False: request answered 503, state unchanged. -/
  | reject
  /-- `analyze_domains` returned; `finally: semaphore.release()`. -/
  | finishOk
  /-- `analyze_domains` (or `jsonify`) raised; `finally: semaphore.release()`. -/
  | finishErr
deriving DecidableEq, Repr

/-- One gate step.  Non-blocking acquire succeeds exactly when a permit is
available and never queues; a failed acquire leaves the state unchanged;
both finish events (success and exception) release the permit, mirroring
the `finally` block. -/
inductive GateStep : Gate → GateEv → Gate → Prop where
  | enter {g : Gate} (h : 0 < g.permits) :
      GateStep g GateEv.enter { permits := g.permits - 1, inflight := g.inflight + 1 }
  | reject {g : Gate} (h : g.permits = 0) :
      GateStep g GateEv.reject g
  | finishOk {g : Gate} (h : 0 < g.inflight) :
      GateStep g GateEv.finishOk { permits := g.permits + 1, inflight := g.inflight - 1 }
  | finishErr {g : Gate} (h : 0 < g.inflight) :
      GateStep g GateEv.finishErr { permits := g.permits + 1, inflight := g.inflight - 1 }

/-- Gate states reachable from the fresh semaphore by request lifecycles. -/
inductive GateReachable : Gate → Prop where
  | init : GateReachable gateInit
  | step {g : Gate} {e : GateEv} {g' : Gate} :
      GateReachable g → GateStep g e g' → GateReachable g'

/-! ## HTTP handler (lines 13-35 and 158-180)

Flask itself is external; what is embedded is the decision logic of
`requires_auth` + `analyze_url`: the credential table, the body check, the
non-blocking gate test, and the mapping of the analysis outcome to a
response.  The analysis call (browser plus aggregation) is a parameter
`run`, whose outcome is either a result or a raised exception message. -/

/-- `USERS = {"admin": "password123"}` (lines 13-15). -/
def USERS : List (Url × Url) := [(['a', 'd', 'm', 'i', 'n'],
  ['p', 'a', 's', 's', 'w', 'o', 'r', 'd', '1', '2', '3'])]

/-- `check_auth` (lines 17-19): `username in USERS and USERS[username] == password`. -/
def check_auth (username password : Url) : Bool :=
  match USERS.lookup username with
  | some pw => pw == password
  | none => false

/-- The parsed JSON body of the POST, as `analyze_url` inspects it
(lines 162-168): absent/empty (`not data`), present without `'url'`, or
with a `url` and an optional `timeout`. -/
inductive ReqBody where
  | noJson
  | withoutUrl
  | withUrl (url : Url) (timeoutField : Option Nat)
deriving DecidableEq, Repr

/-- Outcome of `analyze_domains(url, timeout)` inside the `try`: a result,
or an exception carrying `str(e)`. -/
inductive RunOutcome where
  | ok (r : AnalysisResult)
  | raised (msg : Url)
deriving DecidableEq, Repr

/-- Body of an HTTP response: an `{"error": msg}` object or the analysis
result object. -/
inductive RespBody where
  | errorMsg (msg : Url)
  | result (r : AnalysisResult)
deriving DecidableEq, Repr

/-- An HTTP response: status code, JSON body, and whether a
`WWW-Authenticate` challenge header is attached. -/
structure HttpResp where
  status : Nat
  body : RespBody
  wwwAuthenticate : Bool
deriving DecidableEq, Repr

/-- `authenticate()` (lines 21-25): 401, error body, challenge header. -/
def authenticate : HttpResp :=
  { status := 401
    body := RespBody.errorMsg
      "Authentication required".toList
    wwwAuthenticate := true }

/-- The `requires_auth`-decorated `analyze_url` handler (lines 27-35 and
158-180) as a function of the request's Basic credentials (none when the
`Authorization` header is absent), the parsed body, whether the gate has a
permit free, and the analysis outcome. -/
def analyze_url (auth : Option (Url × Url)) (body : ReqBody)
    (gatePermits : Nat) (run : Url → Nat → RunOutcome) : HttpResp :=
  match auth with
  | none => authenticate
  | some (u, p) =>
    if !check_auth u p then authenticate
    else
      match body with
      | ReqBody.noJson =>
          { status := 400, body := RespBody.errorMsg
              "Missing 'url' in request body".toList, wwwAuthenticate := false }
      | ReqBody.withoutUrl =>
          { status := 400, body := RespBody.errorMsg
              "Missing 'url' in request body".toList, wwwAuthenticate := false }
      | ReqBody.withUrl url timeoutField =>
          if gatePermits = 0 then
            { status := 503, body := RespBody.errorMsg
                "Server is busy, please try again later".toList,
              wwwAuthenticate := false }
          else
            match run url (timeoutField.getD 30) with
            | RunOutcome.ok r =>
                { status := 200, body := RespBody.result r, wwwAuthenticate := false }
            | RunOutcome.raised msg =>
                { status := 500, body := RespBody.errorMsg msg, wwwAuthenticate := false }

/-! ## Shared lemmas -/

theorem mem_sortedSet {a : Url} {l : List Url} : a ∈ sortedSet l ↔ a ∈ l := by
  unfold sortedSet
  rw [List.mem_insertionSort, List.mem_dedup]

theorem sortedSet_sorted (l : List Url) : List.Sorted (· ≤ ·) (sortedSet l) :=
  List.sorted_insertionSort (· ≤ ·) l.dedup

theorem sortedSet_nodup (l : List Url) : (sortedSet l).Nodup :=
  (List.perm_insertionSort (· ≤ ·) l.dedup).nodup_iff.mpr (List.nodup_dedup l)

theorem analyze_domains_invalid_eq (tld : Url → TldResult) (links requests : List Url) :
    (analyze_domains tld links requests).invalid_urls =
      (invalidUrls (links ++ requests)).take 10 := rfl

theorem analyze_domains_main_eq (tld : Url → TldResult) (links requests : List Url) :
    (analyze_domains tld links requests).main_domains =
      sortedSet (((sortedSet (validDomains (links ++ requests))).filter
        (fun d => !(tld d).suffix.isEmpty)).map (mainDomainOf tld)) := rfl

theorem stripBlob_append (u : Url) : stripBlob (blobMark ++ u) = u := by
  show stripBlob ('b' :: 'l' :: 'o' :: 'b' :: ':' :: u) = u
  have hpre : List.isPrefixOf blobMark ('b' :: 'l' :: 'o' :: 'b' :: ':' :: u) = true := by
    simp [blobMark, List.isPrefixOf]
  have c1 : ('b' != ':') = true := by decide
  have c2 : ('l' != ':') = true := by decide
  have c3 : ('o' != ':') = true := by decide
  have c4 : ((':' : Char) != ':') = false := by decide
  unfold stripBlob afterFirstColon
  simp [hpre, List.dropWhile, c1, c2, c3, c4]

theorem stripBlob_of_not {u : Url} (h : blobMark.isPrefixOf u = false) :
    stripBlob u = u := by
  unfold stripBlob
  rw [h]
  rfl

/-! ## Claim C3 (corrected) -/

/-- C3, counterexample: the claim quantifies over every URL string `u`, but
for `u = "blob:https://x.com/"` the code strips only one `blob:` marker, so
`extract_domain ("blob:" + u)` re-parses `"blob:https://x.com/"`, whose
netloc is empty, while `extract_domain u` unwraps to `"https://x.com/"` and
returns `x.com`. -/
theorem extract_domain_blob_counterexample :
    extract_domain (blobMark ++ "blob:https://x.com/".toList) = none ∧
    extract_domain "blob:https://x.com/".toList = some "x.com".toList ∧
    extract_domain (blobMark ++ "blob:https://x.com/".toList) ≠
      extract_domain "blob:https://x.com/".toList := by decide

/-- C3 (amended): prefixing a URL with the literal `blob:` marker does not
change the extracted domain, provided the URL does not itself start with
`blob:`: for every such `u`, `extract_domain ("blob:" + u) = extract_domain u`;
in particular `extract_domain "blob:https://foo.bar/x" =
extract_domain "https://foo.bar/x"`. -/
theorem extract_domain_blob_invariant (u : Url)
    (h : blobMark.isPrefixOf u = false) :
    extract_domain (blobMark ++ u) = extract_domain u := by
  unfold extract_domain
  rw [stripBlob_append, stripBlob_of_not h]

theorem extract_domain_blob_invariant_witness :
    blobMark.isPrefixOf "https://foo.bar/x".toList = false ∧
    extract_domain (blobMark ++ "https://foo.bar/x".toList) =
      extract_domain "https://foo.bar/x".toList ∧
    extract_domain "https://foo.bar/x".toList = some "foo.bar".toList :=
  ⟨by decide, extract_domain_blob_invariant _ (by decide), by decide⟩

/-! ## Claim C4 (confirmed) -/

/-- C4: the Domain Extractor returns exactly the authority (netloc)
component of the parsed (blob-unwrapped) URL when that component is
nonempty and contains at least one `.`, and none otherwise — in
particular, none whenever the authority lacks a `.`. -/
theorem extract_domain_netloc_characterization (u d : Url)
    (h : urlsplit_netloc (stripBlob u) = Except.ok d) :
    extract_domain u = if d ≠ [] ∧ '.' ∈ d then some d else none := by
  unfold extract_domain
  rw [h]

theorem extract_domain_netloc_characterization_witness :
    urlsplit_netloc (stripBlob "https://foo.bar/x".toList) =
      Except.ok "foo.bar".toList ∧
    extract_domain "https://foo.bar/x".toList = some "foo.bar".toList ∧
    extract_domain "http://localhost/x".toList = none :=
  ⟨rfl,
   (extract_domain_netloc_characterization "https://foo.bar/x".toList
      "foo.bar".toList rfl).trans (by decide),
   (extract_domain_netloc_characterization "http://localhost/x".toList
      "localhost".toList rfl).trans (by decide)⟩

/-! ## Claim C5 (confirmed) -/

/-- C5: the Domain Extractor is total — raising is modelled by the parse
returning `Except.error`, and the bare `except:` maps every parse failure
to none; in the embedding `extract_domain` is a total function into
`Option`, and whenever the parse errors the result is none. -/
theorem extract_domain_parse_failure_none (u : Url) (e : Unit)
    (h : urlsplit_netloc (stripBlob u) = Except.error e) :
    extract_domain u = none := by
  unfold extract_domain
  rw [h]

theorem extract_domain_parse_failure_none_witness :
    urlsplit_netloc (stripBlob "http://[::1/x".toList) = Except.error () ∧
    extract_domain "http://[::1/x".toList = none :=
  ⟨rfl, extract_domain_parse_failure_none "http://[::1/x".toList () rfl⟩

/-! ## Claim C1 (corrected) -/

/-- C1, counterexample: `capture_requests_playwright` deduplicates the
observed request stream (`all_urls = list(set(all_requests))`, line 97)
before `analyze_domains` counts it, so for two identical observed requests
the emitted `requests_count` is 1, not the pre-dedup total 2. -/
theorem requests_count_counterexample :
    (pipeline tldDemo [] ["https://a.com/x".toList, "https://a.com/x".toList]).requests_count
      = 1 ∧
    ([("https://a.com/x".toList : Url), "https://a.com/x".toList]).length = 2 ∧
    (pipeline tldDemo [] ["https://a.com/x".toList, "https://a.com/x".toList]).requests_count
      ≠ ([("https://a.com/x".toList : Url), "https://a.com/x".toList]).length := by
  decide

/-- C1 (amended): the emitted `requests_count` equals the number of
distinct network request URLs observed during the page load and dwell
period (the post-dedup count), not the raw pre-dedup total. -/
theorem requests_count_eq_distinct_observed (tld : Url → TldResult)
    (links observedRequests : List Url) :
    (pipeline tld links observedRequests).requests_count =
      observedRequests.toFinset.card :=
  (List.card_toFinset observedRequests).symm

/-! ## Claim C2 (corrected) -/

/-- C2, counterexample: the claim quantifies over every URL starting with
`javascript:` or `data:`, but a scheme-relative one such as
`javascript://example.com/x` has netloc `example.com` under `urlparse`, so
`extract_domain` succeeds and the URL does contribute a registrable domain
to `main_domains`. -/
theorem js_url_contributes_domain_counterexample :
    jsMark.isPrefixOf "javascript://example.com/x".toList = true ∧
    (analyze_domains tldDemo ["javascript://example.com/x".toList] []).main_domains =
      ["example.com".toList] := by
  decide

/-- C2 (amended): a URL starting with `javascript:` or `data:` is never
appended to `invalid_urls`; and when the Domain Extractor yields no domain
for it (as for `javascript:void(0)`, which has an empty netloc) it
contributes nothing to `main_domains` either — in particular for
`links = ["javascript:void(0)"]` and `requests = []` the result has
`invalid_urls = []`, `invalid_urls_count = 0` and `main_domains = []`. -/
theorem invalid_urls_never_marked (tld : Url → TldResult)
    (links requests : List Url) :
    (∀ v ∈ (analyze_domains tld links requests).invalid_urls,
        jsMark.isPrefixOf v = false ∧ dataMark.isPrefixOf v = false) ∧
    analyze_domains tld ["javascript:void(0)".toList] [] =
      { links_count := 1, requests_count := 0, main_domains := [],
        main_domains_count := 0, invalid_urls := [], invalid_urls_count := 0 } := by
  constructor
  · intro v hv
    rw [analyze_domains_invalid_eq] at hv
    have hv' : v ∈ invalidUrls (links ++ requests) := List.take_subset _ _ hv
    have h2 := (List.mem_filter.mp hv').2
    simp only [isIgnorable, Bool.and_eq_true, Bool.not_eq_true',
      Bool.or_eq_false_iff] at h2
    exact ⟨h2.2.1.2, h2.2.2⟩
  · rfl

theorem invalid_urls_never_marked_witness :
    jsMark.isPrefixOf "hello".toList = false ∧
    dataMark.isPrefixOf "hello".toList = false :=
  (invalid_urls_never_marked tldDemo ["hello".toList] []).1
    "hello".toList (by decide)

/-! ## Claim C6 (confirmed) -/

/-- C6: the emitted `invalid_urls` is exactly the first 10 invalid URLs in
discovery order (links in order, then requests in order), its length never
exceeds 10, and `invalid_urls_count` is the true total number of invalid
URLs found. -/
theorem invalid_urls_capped_and_counted (tld : Url → TldResult)
    (links requests : List Url) :
    (analyze_domains tld links requests).invalid_urls =
        (invalidUrls (links ++ requests)).take 10 ∧
    (analyze_domains tld links requests).invalid_urls.length ≤ 10 ∧
    (analyze_domains tld links requests).invalid_urls_count =
        (invalidUrls (links ++ requests)).length := by
  refine ⟨rfl, ?_, rfl⟩
  rw [analyze_domains_invalid_eq]
  exact List.length_take_le 10 _

/-! ## Claim C7 (confirmed) -/

/-- C7: `main_domains` is lexicographically sorted and duplicate-free, and
every entry arises from a raw extracted domain whose `tld` resolution
recognized a nonempty public suffix — so raw domains with no recognized
suffix are excluded. -/
theorem main_domains_sorted_nodup_filtered (tld : Url → TldResult)
    (links requests : List Url) :
    List.Sorted (· ≤ ·) (analyze_domains tld links requests).main_domains ∧
    (analyze_domains tld links requests).main_domains.Nodup ∧
    ∀ m ∈ (analyze_domains tld links requests).main_domains,
      ∃ d, d ∈ validDomains (links ++ requests) ∧ (tld d).suffix ≠ [] ∧
        m = mainDomainOf tld d := by
  rw [analyze_domains_main_eq]
  refine ⟨sortedSet_sorted _, sortedSet_nodup _, ?_⟩
  intro m hm
  obtain ⟨d, hd, hmd⟩ := List.mem_map.mp (mem_sortedSet.mp hm)
  have hd' := List.mem_filter.mp hd
  refine ⟨d, mem_sortedSet.mp hd'.1, ?_, hmd.symm⟩
  simpa [List.isEmpty_iff] using hd'.2

theorem main_domains_sorted_nodup_filtered_witness :
    ∃ d, d ∈ validDomains (["https://a.com/x".toList] ++ ([] : List Url)) ∧
      (tldDemo d).suffix ≠ [] ∧ "a.com".toList = mainDomainOf tldDemo d :=
  (main_domains_sorted_nodup_filtered tldDemo ["https://a.com/x".toList] []).2.2
    "a.com".toList (by decide)

/-! ## Claim C10 (confirmed) -/

/-- C10: when a raw extracted domain is itself exactly a recognized public
suffix (the suffix database returns an empty registrable label and a
nonempty suffix, e.g. host `co.uk`), the aggregator still emits
`"" + "." + suffix`, i.e. an entry with a leading dot such as `.co.uk`. -/
theorem suffix_only_domain_leading_dot (tld : Url → TldResult)
    (links requests : List Url) (d : Url)
    (hd : d ∈ validDomains (links ++ requests))
    (hdom : (tld d).domain = []) (hsuf : (tld d).suffix ≠ []) :
    '.' :: (tld d).suffix ∈ (analyze_domains tld links requests).main_domains := by
  rw [analyze_domains_main_eq, mem_sortedSet]
  apply List.mem_map.mpr
  refine ⟨d, List.mem_filter.mpr ⟨mem_sortedSet.mpr hd, ?_⟩, ?_⟩
  · simpa [List.isEmpty_iff] using hsuf
  · simp [mainDomainOf, hdom]

theorem suffix_only_domain_leading_dot_witness :
    '.' :: (tldDemo "co.uk".toList).suffix ∈
      (analyze_domains tldDemo ["https://co.uk/x".toList] []).main_domains :=
  suffix_only_domain_leading_dot tldDemo ["https://co.uk/x".toList] []
    "co.uk".toList (by decide) (by decide) (by decide)

/-! ## Claim C8 (confirmed) -/

/-- C8: with the gate ceiling at 5, along every reachable gate state the
number of in-flight analyses never exceeds 5; when 5 are in flight a
further acquire cannot be admitted and is rejected immediately (the reject
step leaves the state unchanged — no queuing); and every finish step
(success or exception, via the `finally`) releases the permit, after which
an enter step is enabled again. -/
theorem gate_bounded_reject_release (g : Gate) (h : GateReachable g) :
    g.permits + g.inflight = MAX_CONCURRENT_REQUESTS ∧
    g.inflight ≤ MAX_CONCURRENT_REQUESTS ∧
    (g.inflight = MAX_CONCURRENT_REQUESTS →
      (¬ ∃ g', GateStep g GateEv.enter g') ∧ GateStep g GateEv.reject g) ∧
    (∀ e g', GateStep g e g' →
      (e = GateEv.finishOk ∨ e = GateEv.finishErr) →
      g'.permits = g.permits + 1 ∧ ∃ g'', GateStep g' GateEv.enter g'') := by
  have inv : g.permits + g.inflight = MAX_CONCURRENT_REQUESTS := by
    induction h with
    | init => rfl
    | step hr hs ih =>
        cases hs with
        | enter h' => simp only [MAX_CONCURRENT_REQUESTS] at *; omega
        | reject h' => exact ih
        | finishOk h' => simp only [MAX_CONCURRENT_REQUESTS] at *; omega
        | finishErr h' => simp only [MAX_CONCURRENT_REQUESTS] at *; omega
  refine ⟨inv, by omega, ?_, ?_⟩
  · intro h5
    have hp : g.permits = 0 := by omega
    refine ⟨?_, GateStep.reject hp⟩
    rintro ⟨g', hg'⟩
    cases hg' with
    | enter h' => omega
  · intro e g' hs he
    cases hs with
    | enter h' => rcases he with he | he <;> exact absurd he (by simp)
    | reject h' => rcases he with he | he <;> exact absurd he (by simp)
    | finishOk h' => exact ⟨rfl, _, GateStep.enter (Nat.succ_pos _)⟩
    | finishErr h' => exact ⟨rfl, _, GateStep.enter (Nat.succ_pos _)⟩

theorem gate_bounded_reject_release_witness :
    ((⟨0, 5⟩ : Gate).permits + (⟨0, 5⟩ : Gate).inflight = MAX_CONCURRENT_REQUESTS) ∧
    ((⟨0, 5⟩ : Gate).inflight ≤ MAX_CONCURRENT_REQUESTS) ∧
    (¬ ∃ g', GateStep ⟨0, 5⟩ GateEv.enter g') ∧
    GateStep ⟨0, 5⟩ GateEv.reject ⟨0, 5⟩ := by
  have reach : GateReachable ⟨0, 5⟩ := by
    have h1 : GateReachable ⟨4, 1⟩ :=
      GateReachable.step GateReachable.init (GateStep.enter (by decide))
    have h2 : GateReachable ⟨3, 2⟩ :=
      GateReachable.step h1 (GateStep.enter (by decide))
    have h3 : GateReachable ⟨2, 3⟩ :=
      GateReachable.step h2 (GateStep.enter (by decide))
    have h4 : GateReachable ⟨1, 4⟩ :=
      GateReachable.step h3 (GateStep.enter (by decide))
    exact GateReachable.step h4 (GateStep.enter (by decide))
  have h := gate_bounded_reject_release ⟨0, 5⟩ reach
  exact ⟨h.1, h.2.1, (h.2.2.1 rfl).1, (h.2.2.1 rfl).2⟩

/-! ## Claim C9 (confirmed) -/

/-- C9: the POST `/analyze` handler maps outcomes to responses: missing or
wrong Basic credentials give 401 with the `WWW-Authenticate` challenge;
with valid credentials a body without a `url` field gives 400 with an error
body; a saturated gate gives 503 with the server-busy error body; an
exception during analysis gives 500 carrying the exception message; and a
successful analysis gives 200 with the result JSON. -/
theorem analyze_url_response_mapping (body : ReqBody) (permits : Nat)
    (run : Url → Nat → RunOutcome) (u p url : Url) (t : Option Nat)
    (r : AnalysisResult) (msg : Url) :
    analyze_url none body permits run =
      { status := 401, body := RespBody.errorMsg "Authentication required".toList,
        wwwAuthenticate := true } ∧
    (check_auth u p = false →
      analyze_url (some (u, p)) body permits run =
        { status := 401, body := RespBody.errorMsg "Authentication required".toList,
          wwwAuthenticate := true }) ∧
    (check_auth u p = true →
      (analyze_url (some (u, p)) ReqBody.noJson permits run =
        { status := 400,
          body := RespBody.errorMsg "Missing 'url' in request body".toList,
          wwwAuthenticate := false }) ∧
      (analyze_url (some (u, p)) ReqBody.withoutUrl permits run =
        { status := 400,
          body := RespBody.errorMsg "Missing 'url' in request body".toList,
          wwwAuthenticate := false }) ∧
      (analyze_url (some (u, p)) (ReqBody.withUrl url t) 0 run =
        { status := 503,
          body := RespBody.errorMsg "Server is busy, please try again later".toList,
          wwwAuthenticate := false }) ∧
      (permits ≠ 0 → run url (t.getD 30) = RunOutcome.ok r →
        analyze_url (some (u, p)) (ReqBody.withUrl url t) permits run =
          { status := 200, body := RespBody.result r, wwwAuthenticate := false }) ∧
      (permits ≠ 0 → run url (t.getD 30) = RunOutcome.raised msg →
        analyze_url (some (u, p)) (ReqBody.withUrl url t) permits run =
          { status := 500, body := RespBody.errorMsg msg,
            wwwAuthenticate := false })) := by
  refine ⟨rfl, ?_, ?_⟩
  · intro hbad
    simp [analyze_url, hbad, authenticate]
  · intro hgood
    refine ⟨?_, ?_, ?_, ?_, ?_⟩
    · simp [analyze_url, hgood]
    · simp [analyze_url, hgood]
    · simp [analyze_url, hgood]
    · intro hp hr
      simp [analyze_url, hgood, hp, hr]
    · intro hp hr
      simp [analyze_url, hgood, hp, hr]

/-- A trivial analysis result for the handler witness. -/
def emptyResult : AnalysisResult :=
  { links_count := 0, requests_count := 0, main_domains := [],
    main_domains_count := 0, invalid_urls := [], invalid_urls_count := 0 }

/-- A run of the analysis that returns `emptyResult`. -/
def runOk : Url → Nat → RunOutcome := fun _ _ => RunOutcome.ok emptyResult

/-- A run of the analysis that raises with message `boom`. -/
def runErr : Url → Nat → RunOutcome :=
  fun _ _ => RunOutcome.raised ['b', 'o', 'o', 'm']

theorem analyze_url_response_mapping_witness :
    analyze_url none ReqBody.noJson 1 runOk =
      { status := 401, body := RespBody.errorMsg "Authentication required".toList,
        wwwAuthenticate := true } ∧
    analyze_url (some (['a'], ['b'])) ReqBody.noJson 1 runOk =
      { status := 401, body := RespBody.errorMsg "Authentication required".toList,
        wwwAuthenticate := true } ∧
    analyze_url (some ("admin".toList, "password123".toList))
        ReqBody.withoutUrl 1 runOk =
      { status := 400,
        body := RespBody.errorMsg "Missing 'url' in request body".toList,
        wwwAuthenticate := false } ∧
    analyze_url (some ("admin".toList, "password123".toList))
        (ReqBody.withUrl ['u'] none) 0 runOk =
      { status := 503,
        body := RespBody.errorMsg "Server is busy, please try again later".toList,
        wwwAuthenticate := false } ∧
    analyze_url (some ("admin".toList, "password123".toList))
        (ReqBody.withUrl ['u'] none) 1 runOk =
      { status := 200, body := RespBody.result emptyResult,
        wwwAuthenticate := false } ∧
    analyze_url (some ("admin".toList, "password123".toList))
        (ReqBody.withUrl ['u'] none) 1 runErr =
      { status := 500, body := RespBody.errorMsg ['b', 'o', 'o', 'm'],
        wwwAuthenticate := false } := by
  refine ⟨?_, ?_, ?_, ?_, ?_, ?_⟩
  · exact (analyze_url_response_mapping ReqBody.noJson 1 runOk ['a'] ['b'] ['u']
      none emptyResult ['m']).1
  · exact (analyze_url_response_mapping ReqBody.noJson 1 runOk ['a'] ['b'] ['u']
      none emptyResult ['m']).2.1 (by decide)
  · exact ((analyze_url_response_mapping ReqBody.withoutUrl 1 runOk "admin".toList
      "password123".toList ['u'] none emptyResult ['m']).2.2 (by decide)).2.1
  · exact ((analyze_url_response_mapping ReqBody.noJson 1 runOk "admin".toList
      "password123".toList ['u'] none emptyResult ['m']).2.2 (by decide)).2.2.1
  · exact ((analyze_url_response_mapping ReqBody.noJson 1 runOk "admin".toList
      "password123".toList ['u'] none emptyResult ['m']).2.2
        (by decide)).2.2.2.1 (by decide) rfl
  · exact ((analyze_url_response_mapping ReqBody.noJson 1 runErr "admin".toList
      "password123".toList ['u'] none emptyResult
        ['b', 'o', 'o', 'm']).2.2 (by decide)).2.2.2.2 (by decide) rfl
